import Mathlib

/- Verification of the repair-loop orchestrator, rule-based fix dispatcher and
   collaborator boundaries of the CI-CD agent repository, as a shallow
   embedding of src/backend/app/docker_runner.py, src/backend/app/fixer.py,
   src/backend/app/git_utils.py and src/backend/docker/agent_server.py. -/

/- ===================== basic Python string helpers ===================== -/

def sqChar : Char := Char.ofNat 39

def SQ : String := String.singleton sqChar

def bsChar : Char := Char.ofNat 92

def BS : String := String.singleton bsChar

def isPySpace (c : Char) : Bool := c.isWhitespace

def isWordChar (c : Char) : Bool := c.isAlphanum || c = '_'

/-- Substring test on char lists, mirroring the Python `in` operator. -/
def hasSub (hay needle : List Char) : Bool :=
  match hay with
  | [] => needle.isEmpty
  | _ :: t => needle.isPrefixOf hay || hasSub t needle

def strContains (hay needle : String) : Bool := hasSub hay.data needle.data

def pyLower (s : String) : String := String.mk (s.data.map Char.toLower)

def pyStartsWith (s p : String) : Bool := p.data.isPrefixOf s.data

def pyEndsWith (s p : String) : Bool := p.data.reverse.isPrefixOf s.data.reverse

/-- Python `str.split(sep)` for a non-empty separator, with fuel. -/
def pySplitAux (fuel : Nat) (sep : List Char) (acc : List Char) (cs : List Char) :
    List String :=
  match fuel with
  | 0 => [ String.mk acc.reverse ]
  | f + 1 =>
    match cs with
    | [] => [ String.mk acc.reverse ]
    | c :: t =>
      if sep.isPrefixOf cs && !sep.isEmpty then
        String.mk acc.reverse :: pySplitAux f sep [] (cs.drop sep.length)
      else pySplitAux f sep (c :: acc) t

def pySplit (s sep : String) : List String :=
  pySplitAux s.data.length sep.data [] s.data

/-- Python `sep.join(parts)`. -/
def pyJoin (sep : String) : List String → String
  | [] => ""
  | [ a ] => a
  | a :: rest => a ++ sep ++ pyJoin sep rest

/-- Python `str.replace` (all non-overlapping occurrences), with fuel. -/
def pyReplaceAux (fuel : Nat) (pat rep cs : List Char) : List Char :=
  match fuel with
  | 0 => cs
  | f + 1 =>
    match cs with
    | [] => []
    | c :: t =>
      if pat.isPrefixOf cs && !pat.isEmpty then
        rep ++ pyReplaceAux f pat rep (cs.drop pat.length)
      else c :: pyReplaceAux f pat rep t

def pyReplace (s pat rep : String) : String :=
  String.mk (pyReplaceAux s.data.length pat.data rep.data s.data)

def dropTrailing (p : Char → Bool) (cs : List Char) : List Char :=
  (cs.reverse.dropWhile p).reverse

def pyLstrip (s : String) : String := String.mk (s.data.dropWhile isPySpace)

def pyRstrip (s : String) : String := String.mk (dropTrailing isPySpace s.data)

def pyStrip (s : String) : String := pyRstrip (pyLstrip s)

/-- Python `str.count`: non-overlapping occurrences, with fuel. -/
def countSubAux (fuel : Nat) (hay needle : List Char) : Nat :=
  match fuel with
  | 0 => 0
  | f + 1 =>
    match hay with
    | [] => 0
    | _ :: t =>
      if needle.isPrefixOf hay && !needle.isEmpty then
        1 + countSubAux f (hay.drop needle.length) needle
      else
        countSubAux f t needle

def pyCount (hay needle : String) : Nat :=
  countSubAux hay.data.length hay.data needle.data

/-- Python `str.split(sep, 1)`: split at the first occurrence only. -/
def splitOnce (s sep : String) : String × String :=
  match pySplit s sep with
  | [] => (s, "")
  | a :: rest => (a, pyJoin sep rest)

def mkSpaces (n : Nat) : String := String.mk (List.replicate n ' ')

/-- `len(line) - len(line.lstrip())`: the leading-whitespace count. -/
def indentOf (s : String) : Nat := s.length - (pyLstrip s).length

def pyBasename (p : String) : String := (pySplit p "/").getLastD p

/- ============ Python list indexing with negative-index wrap ============ -/

def pyWrap (len : Nat) (i : Int) : Int := if i < 0 then (len : Int) + i else i

/-- `lines[i]` with Python negative-index semantics; out of range yields `""`
    (all call sites in the source are bounds-guarded). -/
def pyGet (lines : List String) (i : Int) : String :=
  let j := pyWrap lines.length i
  if j < 0 then "" else lines.getD j.toNat ""

/-- `lines[i] = v` with Python negative-index semantics. -/
def pySet (lines : List String) (i : Int) (v : String) : List String :=
  let j := pyWrap lines.length i
  if j < 0 then lines else lines.set j.toNat v

/-- `lines.insert(i, v)` with Python clamping semantics. -/
def pyInsert (lines : List String) (i : Int) (v : String) : List String :=
  let j := pyWrap lines.length i
  let k := if j < 0 then 0 else min j.toNat lines.length
  lines.take k ++ v :: lines.drop k

/-- `del lines[i]` with Python negative-index semantics. -/
def pyDel (lines : List String) (i : Int) : List String :=
  let j := pyWrap lines.length i
  if j < 0 then lines else lines.take j.toNat ++ lines.drop (j.toNat + 1)

/- ===================== data model (app.models usage) ===================== -/

/-- Error kinds per the classifier taxonomy (models module referenced from
    src via `app.models.ErrorType`; the value strings follow the taxonomy
    names of the specification). -/
inductive ErrorType where
  | SYNTAX
  | INDENTATION
  | TYPE_ERROR
  | IMPORT
  | LOGIC
  | LINTING
deriving DecidableEq, Repr

def ErrorType.value : ErrorType → String
  | .SYNTAX => "Syntax"
  | .INDENTATION => "Indentation"
  | .TYPE_ERROR => "TypeError"
  | .IMPORT => "Import"
  | .LOGIC => "Logic"
  | .LINTING => "Linting"

structure ErrorInfo where
  type : ErrorType
  file : String
  line : Int
  message : String
deriving DecidableEq, Repr

structure FixResult where
  file : String
  line : Int
  type : String
  commit_message : String
  status : String
deriving DecidableEq, Repr

structure AgentResponse where
  repo : String
  branch : String
  total_failures : Nat
  total_fixes : Nat
  iterations : Nat
  status : String
  fixes : List FixResult
deriving DecidableEq, Repr

/- ===================== git_utils.GitHandler.commit_fix ===================== -/

/-- The commit-message template of `GitHandler.commit_fix`. -/
def commit_fix_message (file_path : String) (bug_type : String) (line : Int) : String :=
  "[AI-AGENT] Fixed " ++ bug_type ++ " error in " ++ pyBasename file_path ++
    " line " ++ toString line

/- ===================== DockerRunner._generate_response ===================== -/

/-- The status computation of `DockerRunner._generate_response`. -/
def generate_status (fixes : List FixResult) : String :=
  let successful := (fixes.filter (fun f => f.status == "Fixed")).length
  let status := if successful > 0 && successful == fixes.length then "PASSED" else "PARTIAL"
  if successful == 0 then "FAILED" else status

def generate_response (repo branch : String) (total_failures iterations : Nat)
    (fixes : List FixResult) : AgentResponse :=
  { repo := repo
    branch := branch
    total_failures := total_failures
    total_fixes := (fixes.filter (fun f => f.status == "Fixed")).length
    iterations := iterations
    status := generate_status fixes
    fixes := fixes }

/- ===================== DockerRunner orchestration ===================== -/

def fixedRecord (e : ErrorInfo) : FixResult :=
  { file := e.file
    line := e.line
    type := e.type.value
    commit_message := commit_fix_message e.file e.type.value e.line
    status := "Fixed" }

def failedRecord (e : ErrorInfo) : FixResult :=
  { file := e.file
    line := e.line
    type := e.type.value
    commit_message := ""
    status := "Failed" }

/-- `DockerRunner._apply_and_commit_fix`, with the dispatch edit result and
    the version-control commit outcome supplied by the collaborators. On a
    successful edit whose commit raises, the exception is caught and `False`
    is returned without appending any outcome record; on a failed edit a
    `Failed` outcome with empty commit message is appended; on a successful
    edit and commit a `Fixed` outcome with the template message is appended. -/
def apply_and_commit_fix (editOk commitOk : Bool) (e : ErrorInfo)
    (fixes : List FixResult) : Bool × List FixResult :=
  if editOk then
    if commitOk then (true, fixes ++ [fixedRecord e])
    else (false, fixes)
  else (false, fixes ++ [failedRecord e])

/-- Collaborator behaviour one run can observe: the classified error list of
    each iteration, the dispatch and commit outcome of each fix attempt, and
    the success of the version-control operations. -/
structure Collab where
  classify : Nat → List ErrorInfo
  editOk : Nat → Nat → Bool
  commitOk : Nat → Nat → Bool
  cloneOk : Bool
  branchOk : Bool
  pushForSandboxOk : Bool
  pushIterOk : Nat → Bool

/-- The per-iteration fix pass of `DockerRunner.run` step 4e: dispatch and
    commit each classified failure in order, counting successes. -/
def runIter (C : Collab) (i : Nat) (errs : List ErrorInfo) (j : Nat)
    (cnt : Nat) (fixes : List FixResult) : Nat × List FixResult :=
  match errs with
  | [] => (cnt, fixes)
  | e :: rest =>
    let r := apply_and_commit_fix (C.editOk i j) (C.commitOk i j) e fixes
    runIter C i rest (j + 1) (if r.1 then cnt + 1 else cnt) r.2

structure LoopState where
  fixes : List FixResult
  total_failures : Nat
  iterations : Nat
deriving DecidableEq, Repr

def initialLoopState : LoopState := { fixes := [], total_failures := 0, iterations := 0 }

/-- The iterative fix loop of `DockerRunner.run` (step 4): at most `budget`
    iterations; in sandbox mode a failed pre-test branch push raises out of
    the loop; an empty classified error list stops the loop, as does an
    iteration in which zero fixes succeeded. -/
def loopE (sandboxMode : Bool) (C : Collab) (budget : Nat) (i : Nat)
    (st : LoopState) : Except String LoopState :=
  match budget with
  | 0 => Except.ok st
  | b + 1 =>
    let st1 := { st with iterations := i + 1 }
    if sandboxMode && !(C.pushIterOk i) then
      Except.error "Failed to push branch updates for sandbox"
    else
      let errors := C.classify i
      if errors.isEmpty then Except.ok st1
      else
        let st2 := { st1 with total_failures := errors.length }
        let r := runIter C i errors 0 0 st2.fixes
        let st3 := { st2 with fixes := r.2 }
        if r.1 = 0 then Except.ok st3
        else loopE sandboxMode C b (i + 1) st3

/-- `DockerRunner.run`: clone failure and branch-creation failure raise; in
    sandbox mode a failed branch push for sandbox access raises; then the fix
    loop runs; the final push, dependency install, venv creation and progress
    emission are wrapped in try/except in the source and cannot fail the run,
    so they are not failure points of the model; a report is produced from
    the loop's final state. -/
def run (sandboxMode : Bool) (maxRetries : Nat) (repo branch : String)
    (C : Collab) : Except String AgentResponse :=
  if !C.cloneOk then Except.error "clone failed" else
  if !C.branchOk then Except.error "branch failed" else
  if sandboxMode && !C.pushForSandboxOk then
    Except.error "Failed to push branch for sandbox access"
  else
    match loopE sandboxMode C maxRetries 0 initialLoopState with
    | Except.error m => Except.error m
    | Except.ok st =>
        Except.ok (generate_response repo branch st.total_failures st.iterations st.fixes)

def scenarioError (n : Nat) : ErrorInfo :=
  { type := ErrorType.SYNTAX, file := "a.py", line := Int.ofNat n, message := "invalid syntax" }

/-- Collaborator behaviour for the budget-3 scenario of C3: iterations one
    and two each classify a single fixable error, iteration three finds none,
    and every version-control operation succeeds. -/
def scenarioCollab : Collab :=
  { classify := fun i => if i = 0 then [scenarioError 1] else if i = 1 then [scenarioError 2] else []
    editOk := fun _ _ => true
    commitOk := fun _ _ => true
    cloneOk := true
    branchOk := true
    pushForSandboxOk := true
    pushIterOk := fun _ => true }

def scenarioFinal : LoopState :=
  { fixes := [fixedRecord (scenarioError 1), fixedRecord (scenarioError 2)]
    total_failures := 1
    iterations := 3 }

/-- Sandbox-mode collaborator whose branch pushes fail but whose checkout and
    branch creation succeed. -/
def pushFailCollab : Collab :=
  { classify := fun _ => []
    editOk := fun _ _ => true
    commitOk := fun _ _ => true
    cloneOk := true
    branchOk := true
    pushForSandboxOk := false
    pushIterOk := fun _ => false }

/- ===================== FixEngine: shared literals ===================== -/

def litExpectedColonSq : String := "expected " ++ SQ ++ ":" ++ SQ

def litExpectedColonDq : String := "expected \":\""

def litMissingParens : String := "Missing parentheses in call to " ++ SQ ++ "print" ++ SQ

def litNameQ : String := "name " ++ SQ

def litIsNotDefinedTail : String := SQ ++ " is not defined"

def litNoModule : String := "No module named " ++ SQ

def litCannotImportName : String := "cannot import name " ++ SQ

def litNameRegexLiteral : String := "name " ++ SQ ++ ".*?" ++ SQ ++ " is not defined"

def dropTrailingNewline (cs : List Char) : List Char :=
  match cs.reverse with
  | '\n' :: rest => rest.reverse
  | _ => cs

def listInsertAt (lines : List String) (n : Nat) (v : String) : List String :=
  lines.take n ++ v :: lines.drop n

/- ===================== FixEngine: syntax rules ===================== -/

def colonKeywords : List String :=
  [ "def ", "class ", "if ", "for ", "while ", "elif ", "else", "try:", "except", "finally", "with " ]

/-- `FixEngine._fix_missing_colon`. -/
def fix_missing_colon (lines : List String) (line_num : Int) (line : String) :
    Bool × List String :=
  if colonKeywords.any (fun kw => strContains line kw) then
    let code_part :=
      if strContains line "#" then pyRstrip (splitOnce line "#").1 else pyRstrip line
    let comment_part :=
      if strContains line "#" then " #" ++ (splitOnce line "#").2 else ""
    if !(pyEndsWith code_part ":") && !(pyEndsWith code_part BS) then
      (true, pySet lines (line_num - 1) (code_part ++ ":" ++ comment_part ++ "\n"))
    else (false, lines)
  else (false, lines)

/-- Leftmost match of the pattern used by `_fix_print_statement`:
    literal print, one or more whitespace, then a non-empty argument group
    reaching the end of the line (the second regex alternative subsumes the
    quoted first one, as both are anchored at the end). -/
def findPrintArg : List Char → Option (List Char)
  | [] => none
  | c :: cs =>
    if ([ 'p', 'r', 'i', 'n', 't' ] : List Char).isPrefixOf (c :: cs) then
      let rest := (c :: cs).drop 5
      let ws := rest.takeWhile isPySpace
      let rem := rest.dropWhile isPySpace
      if ws.isEmpty then findPrintArg cs
      else if !rem.isEmpty then some rem
      else if ws.length ≥ 2 then some [ws.getLastD ' ']
      else findPrintArg cs
    else findPrintArg cs

/-- `FixEngine._fix_print_statement`. -/
def fix_print_statement (lines : List String) (line_num : Int) (line : String) :
    Bool × List String :=
  match findPrintArg (dropTrailingNewline line.data) with
  | some g =>
    let content := String.mk g
    let indent := indentOf line
    (true, pySet lines (line_num - 1) (mkSpaces indent ++ "print(" ++ content ++ ")\n"))
  | none => (false, lines)

/-- One attempted match, at the head position, of the regex
    if backslash-s+ (word+) backslash-s* = backslash-s* (non-equals-char)
    used by `_fix_comparison_operator`; returns the two capture groups and
    the remainder after the match. -/
def matchIfEq (cs : List Char) : Option (List Char × Char × List Char) :=
  match cs with
  | 'i' :: 'f' :: rest =>
    let ws1 := rest.takeWhile isPySpace
    if ws1.isEmpty then none
    else
      let r1 := rest.dropWhile isPySpace
      let g1 := r1.takeWhile isWordChar
      if g1.isEmpty then none
      else
        let r2 := r1.dropWhile isWordChar
        let r3 := r2.dropWhile isPySpace
        match r3 with
        | '=' :: r4 =>
          let ws2 := r4.takeWhile isPySpace
          let r5 := r4.dropWhile isPySpace
          match r5 with
          | c :: r6 =>
            if c = '=' then
              if ws2.isEmpty then none else some (g1, ws2.getLastD ' ', r5)
            else some (g1, c, r6)
          | [] => if ws2.isEmpty then none else some (g1, ws2.getLastD ' ', [])
        | _ => none
  | _ => none

/-- `re.sub` over the whole line for the comparison-operator pattern,
    replacing every non-overlapping match by the template if g1 == g2. -/
def subIfEqAux (fuel : Nat) (cs : List Char) : List Char :=
  match fuel with
  | 0 => cs
  | f + 1 =>
    match cs with
    | [] => []
    | c :: rest =>
      match matchIfEq cs with
      | some r =>
        'i' :: 'f' :: ' ' :: (r.1 ++ (' ' :: '=' :: '=' :: ' ' :: [r.2.1])) ++ subIfEqAux f r.2.2
      | none => c :: subIfEqAux f rest

def subIfEq (s : String) : String := String.mk (subIfEqAux s.data.length s.data)

/-- `FixEngine._fix_comparison_operator`. -/
def fix_comparison_operator (lines : List String) (line_num : Int) (line : String) :
    Bool × List String :=
  if strContains line "if " then
    let fixed_line := subIfEq line
    if fixed_line != line then (true, pySet lines (line_num - 1) fixed_line)
    else (false, lines)
  else (false, lines)

/-- `FixEngine._fix_missing_comma`: deliberately disabled in the source. -/
def fix_missing_comma (lines : List String) (_line_num : Int) (_line : String) :
    Bool × List String :=
  (false, lines)

/-- `FixEngine._fix_unclosed_string`. -/
def fix_unclosed_string (lines : List String) (line_num : Int) (line : String) :
    Bool × List String :=
  let stripped := pyRstrip line
  let single_quotes := pyCount stripped SQ - pyCount stripped (BS ++ SQ)
  let double_quotes := pyCount stripped "\"" - pyCount stripped (BS ++ "\"")
  if single_quotes % 2 = 1 && !(pyEndsWith stripped SQ) then
    (true, pySet lines (line_num - 1) (pyRstrip line ++ SQ ++ "\n"))
  else if double_quotes % 2 = 1 && !(pyEndsWith stripped "\"") then
    (true, pySet lines (line_num - 1) (pyRstrip line ++ "\"\n"))
  else (false, lines)

/-- `FixEngine._fix_empty_block`. -/
def fix_empty_block (lines : List String) (line_num : Int) (_line : String) :
    Bool × List String :=
  if line_num > 1 then
    let prev_line := pyGet lines (line_num - 2)
    if pyEndsWith (pyRstrip prev_line) ":" then
      let prev_indent := indentOf prev_line
      let indent := prev_indent + 4
      (true, pySet lines (line_num - 1) (mkSpaces indent ++ "pass\n"))
    else (false, lines)
  else (false, lines)

/-- `FixEngine._fix_quote_mismatch`: deliberately skipped in the source. -/
def fix_quote_mismatch (lines : List String) (_line_num : Int) (_line : String) :
    Bool × List String :=
  (false, lines)

/-- `FixEngine._fix_syntax`: the guarded rule chain with the unconditional
    missing-colon fallback; the file is written only when a rule fired. -/
def fix_syntax_rules (e : ErrorInfo) (lines : List String) (line : String) :
    Bool × List String :=
  let msgLower := pyLower e.message
  if strContains e.message litExpectedColonSq || strContains e.message litExpectedColonDq then
    fix_missing_colon lines e.line line
  else if strContains e.message litMissingParens then
    fix_print_statement lines e.line line
  else if strContains msgLower "invalid syntax" && strContains line "=" && strContains line "if " then
    fix_comparison_operator lines e.line line
  else if strContains msgLower "invalid syntax" &&
      (([ "[", "\x7b", "(" ] : List String).any (fun c => strContains line c)) then
    fix_missing_comma lines e.line line
  else if strContains e.message "EOL while scanning string literal" ||
      strContains msgLower "unterminated string" then
    fix_unclosed_string lines e.line line
  else if strContains e.message "expected an indented block" then
    fix_empty_block lines e.line line
  else if strContains msgLower "invalid syntax" &&
      (strContains line "\"" || strContains line SQ) then
    fix_quote_mismatch lines e.line line
  else (false, lines)

def fix_syntax_error_body (e : ErrorInfo) (lines : List String) :
    Bool × Option (List String) :=
  if e.line > (lines.length : Int) || e.line < 1 then (false, some lines)
  else
    let line := pyGet lines (e.line - 1)
    let step := fix_syntax_rules e lines line
    let step2 := if step.1 then step else fix_missing_colon step.2 e.line line
    if step2.1 then (true, some step2.2) else (false, some lines)

def fix_syntax_error (e : ErrorInfo) (fs : Option (List String)) :
    Bool × Option (List String) :=
  match fs with
  | none => (false, none)
  | some lines => fix_syntax_error_body e lines

/- ===================== FixEngine: indentation ===================== -/

/-- `FixEngine._fix_indentation`. -/
def fix_indentation_body (e : ErrorInfo) (lines : List String) :
    Bool × Option (List String) :=
  if e.line > (lines.length : Int) || e.line < 1 then (false, some lines)
  else
    let l0 := pyGet lines (e.line - 1)
    let tabFix := strContains l0 "\t"
    let lines1 := if tabFix then pySet lines (e.line - 1) (pyReplace l0 "\t" "    ") else lines
    let current_line := pyGet lines1 (e.line - 1)
    let current_stripped := pyLstrip current_line
    if e.line > 1 && current_stripped != "" then
      let prev_line := pyGet lines1 (e.line - 2)
      let prev_stripped := pyLstrip prev_line
      let prev_indent := prev_line.length - prev_stripped.length
      let current_indent := current_line.length - current_stripped.length
      if pyEndsWith (pyRstrip prev_stripped) ":" then
        if current_indent ≠ prev_indent + 4 then
          (true, some (pySet lines1 (e.line - 1) (mkSpaces (prev_indent + 4) ++ current_stripped)))
        else if tabFix then (true, some lines1) else (false, some lines)
      else if current_indent < prev_indent then
        (true, some (pySet lines1 (e.line - 1) (mkSpaces prev_indent ++ current_stripped)))
      else if tabFix then (true, some lines1) else (false, some lines)
    else if tabFix then (true, some lines1) else (false, some lines)

def fix_indentation (e : ErrorInfo) (fs : Option (List String)) :
    Bool × Option (List String) :=
  match fs with
  | none => (false, none)
  | some lines => fix_indentation_body e lines

/- ===================== FixEngine: type errors ===================== -/

/-- Leftmost match of: literal name-quote, a non-empty word-character group,
    then the quoted is-not-defined tail (`_extract_undefined_name`). -/
def matchNameWdAux (fuel : Nat) (cs : List Char) : Option String :=
  match fuel with
  | 0 => none
  | f + 1 =>
    match cs with
    | [] => none
    | _ :: t =>
      if litNameQ.data.isPrefixOf cs then
        let rest := cs.drop litNameQ.length
        let g := rest.takeWhile isWordChar
        if !g.isEmpty && litIsNotDefinedTail.data.isPrefixOf (rest.drop g.length) then
          some (String.mk g)
        else matchNameWdAux f t
      else matchNameWdAux f t

def matchNameWd (s : String) : Option String := matchNameWdAux s.data.length s.data

/-- Word-bounded-prefix search for name followed by an opening bracket. -/
def searchBracketAux (fuel : Nat) (name : List Char) (prev : Option Char) (cs : List Char) : Bool :=
  match fuel with
  | 0 => false
  | f + 1 =>
    match cs with
    | [] => false
    | c :: t =>
      let boundOk := match prev with
        | none => true
        | some p => !isWordChar p
      if boundOk && (name ++ [ '[' ]).isPrefixOf cs then true
      else searchBracketAux f name (some c) t

def searchBracket (name content : String) : Bool :=
  searchBracketAux content.data.length name.data none content.data

/-- Search for colon-space-name followed by a word boundary. -/
def searchColonNameAux (fuel : Nat) (pat : List Char) (cs : List Char) : Bool :=
  match fuel with
  | 0 => false
  | f + 1 =>
    match cs with
    | [] => false
    | _ :: t =>
      if pat.isPrefixOf cs then
        match cs.drop pat.length with
        | [] => true
        | c :: _ => if !isWordChar c then true else searchColonNameAux f pat t
      else searchColonNameAux f pat t

def searchColonName (name content : String) : Bool :=
  searchColonNameAux content.data.length ((": " ++ name).data) content.data

/-- Word-bounded whole-word search, for the already-imported check of
    `_add_typing_import`. -/
def wordSearchAux (fuel : Nat) (name : List Char) (prev : Option Char) (cs : List Char) : Bool :=
  match fuel with
  | 0 => false
  | f + 1 =>
    match cs with
    | [] => false
    | c :: t =>
      let boundOk := match prev with
        | none => true
        | some p => !isWordChar p
      let tailOk := match cs.drop name.length with
        | [] => true
        | d :: _ => !isWordChar d
      if boundOk && name.isPrefixOf cs && tailOk then true
      else wordSearchAux f name (some c) t

def wordSearch (name line : String) : Bool :=
  wordSearchAux line.data.length name.data none line.data

def typingNamesCheck : List String :=
  [ "List", "Dict", "Optional", "Set", "Tuple", "Union", "Any", "Callable",
    "Iterable", "Mapping", "Sequence", "TypeVar", "Generic" ]

def typingNamesScan : List String :=
  [ "List", "Dict", "Optional", "Set", "Tuple", "Union", "Any", "Callable" ]

/-- The fallback content scan of `_extract_undefined_name` (the Python set
    literal is iterated in its written order). -/
def scanTyping : List String → String → Option String
  | [], _ => none
  | name :: rest, content =>
    if searchBracket name content || searchColonName name content then
      if !(strContains content "from typing import") then some name
      else
        let firstLine := (pySplit ((pySplit content "from typing import").getD 1 "") "\n").getD 0 ""
        if !(strContains firstLine name) then some name
        else scanTyping rest content
    else scanTyping rest content

/-- `FixEngine._extract_undefined_name`. -/
def extract_undefined_name (message content : String) : Option String :=
  match matchNameWd message with
  | some g => some g
  | none => scanTyping typingNamesScan content

/-- The import-line scan of `_add_typing_import`: index of the first
    from-typing import line (stopping there) and of the last import line
    seen before it. -/
def findTypingImport : List String → Nat → Option Nat → (Option Nat × Option Nat)
  | [], _, last => (none, last)
  | l :: rest, i, last =>
    if pyStartsWith l "from typing import" then (some i, last)
    else if pyStartsWith l "import " || pyStartsWith l "from " then
      findTypingImport rest (i + 1) (some i)
    else findTypingImport rest (i + 1) last

/-- `FixEngine._add_typing_import`. -/
def add_typing_import (lines : List String) (type_name : String) : Bool × List String :=
  match findTypingImport lines 0 none with
  | (some i, _) =>
    let line := lines.getD i ""
    if wordSearch type_name line then (false, lines)
    else
      let newLine :=
        String.mk (dropTrailing (fun c => c = ',') (pyRstrip line).data) ++ ", " ++ type_name ++ "\n"
      (true, lines.set i newLine)
  | (none, last) =>
    let pos := match last with
      | some k => k + 1
      | none => 0
    (true, listInsertAt lines pos ("from typing import " ++ type_name ++ "\n"))

/-- Leftmost match of: literal not-space, optional quote, then a non-empty
    word-character type name (`_fix_string_concatenation`). -/
def matchNotTypeAux (fuel : Nat) (cs : List Char) : Option String :=
  match fuel with
  | 0 => none
  | f + 1 =>
    match cs with
    | [] => none
    | _ :: t =>
      if ([ 'n', 'o', 't', ' ' ] : List Char).isPrefixOf cs then
        let rest := cs.drop 4
        let rest2 := if rest.head? = some sqChar then rest.tail else rest
        let g := rest2.takeWhile isWordChar
        if g.isEmpty then matchNotTypeAux f t else some (String.mk g)
      else matchNotTypeAux f t

def matchNotType (s : String) : Option String := matchNotTypeAux s.data.length s.data

/-- One attempted match, at the head position, of the plus-operand pattern of
    `_fix_string_concatenation`: plus with trailing space group, word group,
    then either spaces-plus or spaces to the end of the string. -/
def matchPlusAt (cs : List Char) : Option (List Char × List Char × List Char × List Char) :=
  match cs with
  | '+' :: r1 =>
    let ws1 := r1.takeWhile isPySpace
    let r2 := r1.dropWhile isPySpace
    let g2 := r2.takeWhile isWordChar
    if g2.isEmpty then none
    else
      let r3 := r2.drop g2.length
      let ws3 := r3.takeWhile isPySpace
      let r4 := r3.dropWhile isPySpace
      match r4 with
      | '+' :: r5 => some ('+' :: ws1, g2, ws3 ++ [ '+' ], r5)
      | _ => if r3.all isPySpace then some ('+' :: ws1, g2, r3, []) else none
  | _ => none

/-- `re.sub` with count 1: replace only the leftmost plus-operand match. -/
def subPlusOnceAux (fuel : Nat) (cs : List Char) : Option (List Char) :=
  match fuel with
  | 0 => none
  | f + 1 =>
    match cs with
    | [] => none
    | c :: t =>
      match matchPlusAt cs with
      | some r =>
        some (r.1 ++ ([ 's', 't', 'r', '(' ] : List Char) ++ r.2.1 ++ [ ')' ] ++ r.2.2.1 ++ r.2.2.2)
      | none =>
        match subPlusOnceAux f t with
        | some res => some (c :: res)
        | none => none

def subPlusOnce (s : String) : String :=
  match subPlusOnceAux s.data.length s.data with
  | some r => String.mk r
  | none => s

/-- `FixEngine._fix_string_concatenation`. -/
def fix_string_concatenation (lines : List String) (line_num : Int) (message : String) :
    Bool × List String :=
  if line_num > (lines.length : Int) then (false, lines)
  else
    let line := pyGet lines (line_num - 1)
    match matchNotType message with
    | none => (false, lines)
    | some var_type =>
      if var_type = "int" || var_type = "float" || var_type = "bool" then
        let new_line := subPlusOnce line
        if new_line != line then (true, pySet lines (line_num - 1) new_line)
        else (false, lines)
      else (false, lines)

/-- `FixEngine._fix_operand_type`: deliberately skipped in the source. -/
def fix_operand_type (lines : List String) (_line_num : Int) (_message : String) :
    Bool × List String :=
  (false, lines)

/-- `FixEngine._fix_type_error`. -/
def fix_type_error_body (e : ErrorInfo) (lines : List String) :
    Bool × Option (List String) :=
    let content := pyJoin "" lines
    let step1 : Option (Bool × List String) :=
      if strContains e.message "is not defined" then
        match extract_undefined_name e.message content with
        | some undefined_name =>
          if typingNamesCheck.contains undefined_name then
            some (add_typing_import lines undefined_name)
          else none
        | none => none
      else none
    match step1 with
    | some r => (r.1, some r.2)
    | none =>
      if strContains e.message "can only concatenate str" ||
          strContains e.message "must be str, not" then
        let r := fix_string_concatenation lines e.line e.message
        (r.1, some r.2)
      else if strContains (pyLower e.message) "missing" &&
          strContains (pyLower e.message) "required positional argument" then
        (false, some lines)
      else if strContains (pyLower e.message) "unsupported operand type" then
        let r := fix_operand_type lines e.line e.message
        (r.1, some r.2)
      else (false, some lines)

def fix_type_error (e : ErrorInfo) (fs : Option (List String)) :
    Bool × Option (List String) :=
  match fs with
  | none => (false, none)
  | some lines => fix_type_error_body e lines

/- ===================== FixEngine: imports ===================== -/

/-- Leftmost match of a literal prefix followed by a non-greedy capture up to
    the next closing quote on the same line. -/
def matchCapSqAux (fuel : Nat) (pre : List Char) (cs : List Char) : Option String :=
  match fuel with
  | 0 => none
  | f + 1 =>
    match cs with
    | [] => none
    | _ :: t =>
      if pre.isPrefixOf cs then
        let rest := cs.drop pre.length
        let cap := rest.takeWhile (fun c => c ≠ sqChar && c ≠ '\n')
        if (rest.drop cap.length).head? = some sqChar then some (String.mk cap)
        else matchCapSqAux f pre t
      else matchCapSqAux f pre t

def matchCapSq (pre s : String) : Option String := matchCapSqAux s.data.length pre.data s.data

/-- Case-insensitive variant for the cannot-import-name pattern (the capture
    keeps the original case). -/
def matchCapSqCIAux (fuel : Nat) (pre : List Char) (cs : List Char) : Option String :=
  match fuel with
  | 0 => none
  | f + 1 =>
    match cs with
    | [] => none
    | _ :: t =>
      if (cs.take pre.length).map Char.toLower = pre then
        let rest := cs.drop pre.length
        let cap := rest.takeWhile (fun c => c ≠ sqChar && c ≠ '\n')
        if (rest.drop cap.length).head? = some sqChar then some (String.mk cap)
        else matchCapSqCIAux f pre t
      else matchCapSqCIAux f pre t

def matchCapSqCI (pre s : String) : Option String :=
  matchCapSqCIAux s.data.length pre.data s.data

/-- The line loop of `FixEngine._comment_out_import`: comment out the first
    uncommented line mentioning the module. -/
def comment_out_go (module_name : String) : List String → Option (List String)
  | [] => none
  | l :: rest =>
    if (strContains l ("import " ++ module_name) || strContains l ("from " ++ module_name)) &&
        !(pyStartsWith (pyStrip l) "#") then
      some (("# " ++ l) :: rest)
    else
      match comment_out_go module_name rest with
      | some r => some (l :: r)
      | none => none

def comment_out_import (lines : List String) (module_name : String) : Bool × List String :=
  match comment_out_go module_name lines with
  | some r => (true, r)
  | none => (false, lines)

/-- The line loop of `FixEngine._remove_from_import`: on the first line
    containing both a from marker and the name, and splitting into exactly
    two parts around the import keyword, keep only the comma-separated items
    not containing the name as a substring, commenting the line out if none
    remain. -/
def remove_from_import_go (import_name : String) : List String → Option (List String)
  | [] => none
  | line :: rest =>
    if strContains line "from " && strContains line import_name then
      match pySplit line "import" with
      | [before, imports] =>
        let import_list := (pySplit imports ",").map pyStrip
        let kept := import_list.filter (fun imp => !(strContains imp import_name))
        if !kept.isEmpty then
          some ((before ++ "import " ++ pyJoin ", " kept ++ "\n") :: rest)
        else
          some (("# " ++ line) :: rest)
      | _ =>
        match remove_from_import_go import_name rest with
        | some r => some (line :: r)
        | none => none
    else
      match remove_from_import_go import_name rest with
      | some r => some (line :: r)
      | none => none

def remove_from_import (lines : List String) (import_name : String) : Bool × List String :=
  match remove_from_import_go import_name lines with
  | some r => (true, r)
  | none => (false, lines)

/-- `FixEngine._fix_relative_import`: deliberately skipped in the source. -/
def fix_relative_import (lines : List String) (_line_num : Int) : Bool × List String :=
  (false, lines)

/-- `FixEngine._fix_import`. -/
def fix_import_body (e : ErrorInfo) (lines : List String) : Bool × Option (List String) :=
    match matchCapSq litNoModule e.message with
    | some module_name =>
      let r := comment_out_import lines module_name
      (r.1, some r.2)
    | none =>
      match
        (if strContains (pyLower e.message) "cannot import name" then
          matchCapSqCI litCannotImportName e.message
        else none) with
      | some import_name =>
        let r := remove_from_import lines import_name
        (r.1, some r.2)
      | none =>
        if strContains (pyLower e.message) "attempted relative import" then
          let r := fix_relative_import lines e.line
          (r.1, some r.2)
        else (false, some lines)

def fix_import (e : ErrorInfo) (fs : Option (List String)) : Bool × Option (List String) :=
  match fs with
  | none => (false, none)
  | some lines => fix_import_body e lines

/- ===================== FixEngine: logic ===================== -/

/-- Leftmost match of the quoted-name non-greedy capture followed by the
    is-not-defined tail (`_fix_logic`). -/
def capToTail (fuel : Nat) (acc : List Char) (cs : List Char) : Option (List Char) :=
  match fuel with
  | 0 => none
  | f + 1 =>
    if litIsNotDefinedTail.data.isPrefixOf cs then some acc.reverse
    else
      match cs with
      | [] => none
      | c :: t => if c = '\n' then none else capToTail f (c :: acc) t

def matchNameAnyAux (fuel : Nat) (cs : List Char) : Option String :=
  match fuel with
  | 0 => none
  | f + 1 =>
    match cs with
    | [] => none
    | _ :: t =>
      if litNameQ.data.isPrefixOf cs then
        match capToTail (cs.length + 1) [] (cs.drop litNameQ.length) with
        | some cap => some (String.mk cap)
        | none => matchNameAnyAux f t
      else matchNameAnyAux f t

def matchNameAny (s : String) : Option String := matchNameAnyAux s.data.length s.data

/-- `FixEngine._initialize_variable`: unconditionally inserts an initializing
    assignment before the failing line (it never checks whether the
    initializer is already present). -/
def initialize_variable (lines : List String) (var_name : String) (line_num : Int) :
    Bool × List String :=
  if line_num ≤ (lines.length : Int) then
    let current_line := pyGet lines (line_num - 1)
    let indent := indentOf current_line
    let init_line := mkSpaces indent ++ var_name ++ " = None  # AI-AGENT: Auto-initialized\n"
    (true, pyInsert lines (line_num - 1) init_line)
  else (false, lines)

/-- `FixEngine._fix_attribute_error`: deliberately unfixed in the source. -/
def fix_attribute_error (lines : List String) (_line_num : Int) (_message : String) :
    Bool × List String :=
  (false, lines)

def fix_logic_rest (e : ErrorInfo) (lines : List String) : Bool × Option (List String) :=
  if strContains (pyLower e.message) "has no attribute" then
    let r := fix_attribute_error lines e.line e.message
    (r.1, some r.2)
  else if strContains (pyLower e.message) "division by zero" then (false, some lines)
  else if strContains (pyLower e.message) "index out of range" then (false, some lines)
  else (false, some lines)

/-- `FixEngine._fix_logic`. -/
def fix_logic_body (e : ErrorInfo) (lines : List String) : Bool × Option (List String) :=
  if strContains e.message litNameRegexLiteral || strContains e.message "is not defined" then
    match matchNameAny e.message with
    | some var_name =>
      let r := initialize_variable lines var_name e.line
      (r.1, some r.2)
    | none => fix_logic_rest e lines
  else fix_logic_rest e lines

def fix_logic (e : ErrorInfo) (fs : Option (List String)) : Bool × Option (List String) :=
  match fs with
  | none => (false, none)
  | some lines => fix_logic_body e lines

/- ===================== FixEngine: linting ===================== -/

/-- `FixEngine._remove_unused_import`. -/
def remove_unused_import (lines : List String) (line_num : Int) : Bool × List String :=
  if line_num ≤ (lines.length : Int) then
    let line := pyGet lines (line_num - 1)
    if strContains (pyLower line) "import" then (true, pyDel lines (line_num - 1))
    else (false, lines)
  else (false, lines)

/-- `FixEngine._remove_unused_variable`: deliberately unfixed in the source. -/
def remove_unused_variable (lines : List String) (_line_num : Int) : Bool × List String :=
  (false, lines)

/-- `FixEngine._remove_trailing_whitespace`. -/
def remove_trailing_whitespace (lines : List String) (line_num : Int) : Bool × List String :=
  if line_num ≤ (lines.length : Int) then
    (true, pySet lines (line_num - 1) (pyRstrip (pyGet lines (line_num - 1)) ++ "\n"))
  else (false, lines)

/-- `FixEngine._fix_linting`. -/
def fix_linting_body (e : ErrorInfo) (lines : List String) : Bool × Option (List String) :=
  if strContains (pyLower e.message) "unused import" ||
      strContains (pyLower e.message) "imported but unused" then
    let r := remove_unused_import lines e.line
    (r.1, some r.2)
  else if strContains (pyLower e.message) "unused variable" then
    let r := remove_unused_variable lines e.line
    (r.1, some r.2)
  else if strContains (pyLower e.message) "trailing whitespace" then
    let r := remove_trailing_whitespace lines e.line
    (r.1, some r.2)
  else (false, some lines)

def fix_linting (e : ErrorInfo) (fs : Option (List String)) : Bool × Option (List String) :=
  match fs with
  | none => (false, none)
  | some lines => fix_linting_body e lines

/- ===================== FixEngine: dispatch ===================== -/

/-- `FixEngine.apply_fix`: dispatch on the error type; the except wrapper of
    the source converts internal errors to False, and the model is total, so
    no exceptional path remains. A missing target file makes every branch
    return False with no write. -/
def apply_fix (e : ErrorInfo) (fs : Option (List String)) : Bool × Option (List String) :=
  match e.type with
  | ErrorType.SYNTAX => fix_syntax_error e fs
  | ErrorType.INDENTATION => fix_indentation e fs
  | ErrorType.TYPE_ERROR => fix_type_error e fs
  | ErrorType.IMPORT => fix_import e fs
  | ErrorType.LOGIC => fix_logic e fs
  | ErrorType.LINTING => fix_linting e fs

/- ===================== agent_server auth ===================== -/

/-- `SANDBOX_TOKEN = os.getenv("SANDBOX_TOKEN", "").strip()`. -/
def sandboxTokenOf (env : Option String) : String := pyStrip (env.getD "")

/-- `_check_auth`: `true` means the request is rejected with HTTP 401. -/
def check_auth (envToken : Option String) (header : Option String) : Bool :=
  let t := sandboxTokenOf envToken
  t != "" && header != some t

/- ============ test execution and the remote sandbox ============ -/

inductive CmdOutcome where
  | done (stdout stderr : String) (rc : Int)
  | timedOut
deriving DecidableEq, Repr

structure SandboxResp where
  stdout : String
  stderr : String
  returncode : Int
  timed_out : Bool
  project_type : String
deriving DecidableEq, Repr

/-- The /run-tests handler of agent_server.py after auth: clone, detect
    project type, install, run tests. A clone timeout yields the fixed
    clone-timeout response; a timeout raised by the install or test command
    is caught and yields stderr "test execution timed out" with the
    initialized empty stdout and returncode 1. -/
def sandbox_run_tests (cloneRes : CmdOutcome) (projectType : String)
    (installRes testRes : CmdOutcome) : SandboxResp :=
  match cloneRes with
  | .timedOut =>
    { stdout := "", stderr := "git clone timed out", returncode := 1,
      timed_out := true, project_type := "unknown" }
  | .done _ _ _ =>
    match installRes with
    | .timedOut =>
      { stdout := "", stderr := "test execution timed out", returncode := 1,
        timed_out := true, project_type := projectType }
    | .done _ _ _ =>
      match testRes with
      | .timedOut =>
        { stdout := "", stderr := "test execution timed out", returncode := 1,
          timed_out := true, project_type := projectType }
      | .done so se rc =>
        { stdout := so, stderr := se, returncode := rc,
          timed_out := false, project_type := projectType }

inductive LocalTestOutcome where
  | completed (stdout stderr : String) (rc : Int)
  | timedOut
  | excFailed
deriving DecidableEq, Repr

inductive RemoteCallOutcome where
  | ok (resp : SandboxResp)
  | excFailed
deriving DecidableEq, Repr

/-- `DockerRunner._run_tests`: the output text the orchestrator receives. In
    sandbox mode a successful HTTP call yields stdout newline stderr of the
    response, and any exception (connection failure, non-2xx status via
    raise_for_status, call timeout) is caught and yields the empty string;
    locally a completed run yields stdout newline stderr, and a subprocess
    timeout or any other exception yields the empty string. -/
def run_tests_output (sandboxMode : Bool) (remote : RemoteCallOutcome)
    (localRes : LocalTestOutcome) : String :=
  if sandboxMode then
    match remote with
    | .ok resp => resp.stdout ++ "\n" ++ resp.stderr
    | .excFailed => ""
  else
    match localRes with
    | .completed so se _ => so ++ "\n" ++ se
    | .timedOut => ""
    | .excFailed => ""

/-- Modelled from the spec: the error classifier (module `app.parser`,
    absent from src) recognizes each raw diagnostic against a fixed catalog
    of sub-patterns and drops unknown diagnostics, so raw output with zero
    recognizable diagnostics classifies to an empty list. -/
def diagnosticCatalog : List String :=
  [ "expected an indented block", "No module named", "is not defined",
    "invalid syntax", "cannot import name", "expected " ++ SQ ++ ":" ++ SQ,
    "Missing parentheses", "attempted relative import", "unused import",
    "imported but unused", "unsupported operand type", "has no attribute",
    "division by zero", "index out of range", "can only concatenate str",
    "must be str, not", "EOL while scanning string literal",
    "unterminated string", "trailing whitespace", "unused variable",
    "IndentationError", "unexpected indent" ]

/-- Modelled from the spec: classification keeps only the raw lines that
    match some catalog pattern (`app.parser.ErrorParser.parse_errors` is not
    under src). -/
def classifyRaw (raw : String) : List String :=
  (pySplit raw "\n").filter (fun ln => diagnosticCatalog.any (fun p => strContains ln p))

/- ============ concrete records for the fixer claims ============ -/

def c5err : ErrorInfo :=
  { type := ErrorType.LOGIC, file := "calc.py", line := 1,
    message := litNameQ ++ "x" ++ litIsNotDefinedTail }

def c8err : ErrorInfo :=
  { type := ErrorType.SYNTAX, file := "app.py", line := 10, message := "invalid syntax" }

def c9err : ErrorInfo :=
  { type := ErrorType.IMPORT, file := "m.py", line := 1,
    message := litCannotImportName ++ "foo" ++ SQ }

/- ===================== theorems ===================== -/

theorem filter_len_pos_iff (fixes : List FixResult) :
    0 < (fixes.filter (fun f => f.status == "Fixed")).length ↔
      ∃ f ∈ fixes, f.status = "Fixed" := by
  rw [List.length_pos]
  constructor
  · intro h
    rcases List.exists_mem_of_ne_nil _ h with ⟨f, hf⟩
    have := List.of_mem_filter hf
    exact ⟨f, List.mem_of_mem_filter hf, by simpa using this⟩
  · rintro ⟨f, hf, hs⟩
    intro hnil
    have : f ∈ fixes.filter (fun f => f.status == "Fixed") :=
      List.mem_filter.mpr ⟨hf, by simpa using hs⟩
    simp [hnil] at this

theorem filter_len_eq_iff (fixes : List FixResult) :
    (fixes.filter (fun f => f.status == "Fixed")).length = fixes.length ↔
      ∀ f ∈ fixes, f.status = "Fixed" := by
  rw [List.filter_length_eq_length]
  constructor
  · intro h f hf
    simpa using h f hf
  · intro h f hf
    simpa using h f hf

theorem filter_len_zero_iff (fixes : List FixResult) :
    (fixes.filter (fun f => f.status == "Fixed")).length = 0 ↔
      ∀ f ∈ fixes, f.status ≠ "Fixed" := by
  rw [List.length_eq_zero]
  constructor
  · intro h f hf hs
    have : f ∈ fixes.filter (fun f => f.status == "Fixed") :=
      List.mem_filter.mpr ⟨hf, by simpa using hs⟩
    simp [h] at this
  · intro h
    by_contra hne
    rcases List.exists_mem_of_ne_nil _ hne with ⟨f, hf⟩
    exact h f (List.mem_of_mem_filter hf) (by simpa using List.of_mem_filter hf)

theorem generate_status_normal (fixes : List FixResult) :
    generate_status fixes =
      (if (fixes.filter (fun f => f.status == "Fixed")).length = 0 then "FAILED"
       else if (fixes.filter (fun f => f.status == "Fixed")).length = fixes.length then "PASSED"
       else "PARTIAL") := by
  unfold generate_status
  set n := (fixes.filter (fun f => f.status == "Fixed")).length with hn
  by_cases h0 : n = 0
  · simp [h0]
  · by_cases h1 : n = fixes.length
    · have hne : fixes ≠ [] := by
        intro hemp
        apply h0
        rw [hn, hemp]
        rfl
      simp [h0, h1, Nat.pos_of_ne_zero h0, hne, List.length_pos.mpr hne]
    · simp [h0, h1]

/-- C1: the final report status is determined exactly by the outcome list:
    PASSED iff at least one outcome is Fixed and every outcome is Fixed;
    FAILED iff zero outcomes are Fixed (including the empty list);
    PARTIAL otherwise. -/
theorem C1_status_determined_by_outcomes (fixes : List FixResult) :
    (generate_status fixes = "PASSED" ↔
      ((∃ f ∈ fixes, f.status = "Fixed") ∧ ∀ f ∈ fixes, f.status = "Fixed")) ∧
    (generate_status fixes = "FAILED" ↔ ∀ f ∈ fixes, f.status ≠ "Fixed") ∧
    (generate_status fixes = "PARTIAL" ↔
      ((∃ f ∈ fixes, f.status = "Fixed") ∧ ∃ f ∈ fixes, f.status ≠ "Fixed")) := by
  have hpos := filter_len_pos_iff fixes
  have heq := filter_len_eq_iff fixes
  have hzero := filter_len_zero_iff fixes
  have hnf := generate_status_normal fixes
  set n := (fixes.filter (fun f => f.status == "Fixed")).length with hn
  by_cases h0 : n = 0
  · have hforall : ∀ f ∈ fixes, f.status ≠ "Fixed" := hzero.mp h0
    have hnoex : ¬ ∃ f ∈ fixes, f.status = "Fixed" := by
      rintro ⟨f, hf, hs⟩; exact hforall f hf hs
    rw [hnf, if_pos h0]
    refine ⟨?_, ?_, ?_⟩
    · exact iff_of_false (by decide) (fun h => hnoex h.1)
    · exact iff_of_true rfl hforall
    · exact iff_of_false (by decide) (fun h => hnoex h.1)
  · have hx : 0 < n := Nat.pos_of_ne_zero h0
    have hex : ∃ f ∈ fixes, f.status = "Fixed" := hpos.mp hx
    by_cases h1 : n = fixes.length
    · have hforall : ∀ f ∈ fixes, f.status = "Fixed" := heq.mp h1
      rw [hnf, if_neg h0, if_pos h1]
      refine ⟨?_, ?_, ?_⟩
      · exact iff_of_true rfl ⟨hex, hforall⟩
      · refine iff_of_false (by decide) (fun h => ?_)
        rcases hex with ⟨f, hf, hs⟩
        exact h f hf hs
      · refine iff_of_false (by decide) (fun h => ?_)
        rcases h.2 with ⟨g, hg, hgs⟩
        exact hgs (hforall g hg)
    · have hnall : ¬ ∀ f ∈ fixes, f.status = "Fixed" := fun h => h1 (heq.mpr h)
      have hexneg : ∃ f ∈ fixes, f.status ≠ "Fixed" := by
        by_contra hno
        push_neg at hno
        exact hnall hno
      rw [hnf, if_neg h0, if_neg h1]
      refine ⟨?_, ?_, ?_⟩
      · exact iff_of_false (by decide) (fun h => hnall h.2)
      · refine iff_of_false (by decide) (fun h => ?_)
        rcases hex with ⟨f, hf, hs⟩
        exact h f hf hs
      · exact iff_of_true rfl ⟨hex, hexneg⟩

/-- C1 witness: the formula evaluated at a concrete mixed outcome list. -/
theorem C1_status_witness :
    generate_status
      [ { file := "a.py", line := 1, type := "Syntax", commit_message := "m", status := "Fixed" },
        { file := "b.py", line := 2, type := "Logic", commit_message := "", status := "Failed" } ]
      = "PARTIAL" := by
  have h := (C1_status_determined_by_outcomes
      [ { file := "a.py", line := 1, type := "Syntax", commit_message := "m", status := "Fixed" },
        { file := "b.py", line := 2, type := "Logic", commit_message := "", status := "Failed" } ]).2.2
  apply h.mpr
  refine ⟨⟨ { file := "a.py", line := 1, type := "Syntax", commit_message := "m", status := "Fixed" }, by simp, rfl⟩,
    ⟨ { file := "b.py", line := 2, type := "Logic", commit_message := "", status := "Failed" }, by simp, by decide⟩⟩

/-- C10 counterexample: with a whitespace-only SANDBOX_TOKEN environment value
    (non-empty) and a differing header, the server accepts the request, so the
    claimed iff (401 exactly when the raw environment value is non-empty and
    the header differs from it) is false. -/
theorem C10_auth_counterexample :
    ¬ (check_auth (some " ") (some "x") = true ↔
        ((" " : String) ≠ "" ∧ some "x" ≠ some (" " : String))) := by
  intro h
  have hc : check_auth (some " ") (some "x") = false := by decide
  have : check_auth (some " ") (some "x") = true := h.mpr (by decide)
  rw [hc] at this
  exact Bool.false_ne_true this

/-- C10 amended: the /run-tests endpoint rejects with 401 iff the
    whitespace-stripped SANDBOX_TOKEN value is non-empty and the request's
    X-Sandbox-Token header differs from that stripped value; when the stripped
    value is empty (unset, empty, or whitespace-only), every request is
    accepted regardless of the header. -/
theorem C10_auth_amended (env header : Option String) :
    check_auth env header = true ↔
      (sandboxTokenOf env ≠ "" ∧ header ≠ some (sandboxTokenOf env)) := by
  unfold check_auth
  constructor
  · intro h
    simp only [Bool.and_eq_true, bne_iff_ne, ne_eq] at h
    exact ⟨h.1, h.2⟩
  · intro h
    simp only [Bool.and_eq_true, bne_iff_ne, ne_eq]
    exact ⟨h.1, h.2⟩

/-- C10 witness: the amended iff at a stripped token, shown on both sides. -/
theorem C10_auth_witness :
    (check_auth (some " secret ") (some "secret") = true ↔
      (sandboxTokenOf (some " secret ") ≠ "" ∧
        some "secret" ≠ some (sandboxTokenOf (some " secret ")))) ∧
    check_auth (some " secret ") (some "secret") = false := by
  exact ⟨C10_auth_amended (some " secret ") (some "secret"), by decide⟩

/- ===================== loop unfolding lemmas ===================== -/

theorem loopE_zero (s : Bool) (C : Collab) (i : Nat) (st : LoopState) :
    loopE s C 0 i st = Except.ok st := rfl

theorem loopE_succ_push (s : Bool) (C : Collab) (b i : Nat) (st : LoopState)
    (h : (s && !(C.pushIterOk i)) = true) :
    loopE s C (b + 1) i st = Except.error "Failed to push branch updates for sandbox" := by
  simp only [loopE, h, if_true]

theorem loopE_succ_empty (s : Bool) (C : Collab) (b i : Nat) (st : LoopState)
    (hp : (s && !(C.pushIterOk i)) = false) (he : C.classify i = []) :
    loopE s C (b + 1) i st = Except.ok { st with iterations := i + 1 } := by
  simp only [loopE, hp, he]
  rfl

theorem loopE_succ_zerofix (s : Bool) (C : Collab) (b i : Nat) (st : LoopState)
    (hp : (s && !(C.pushIterOk i)) = false) (he : ¬ C.classify i = [])
    (hz : (runIter C i (C.classify i) 0 0 st.fixes).1 = 0) :
    loopE s C (b + 1) i st =
      Except.ok { st with iterations := i + 1
                          total_failures := (C.classify i).length
                          fixes := (runIter C i (C.classify i) 0 0 st.fixes).2 } := by
  have he' : (C.classify i).isEmpty = false := by
    cases hcl : C.classify i with
    | nil => exact absurd hcl he
    | cons a t => rfl
  simp only [loopE, hp, he', hz]
  rfl

theorem loopE_succ_step (s : Bool) (C : Collab) (b i : Nat) (st : LoopState)
    (hp : (s && !(C.pushIterOk i)) = false) (he : ¬ C.classify i = [])
    (hz : (runIter C i (C.classify i) 0 0 st.fixes).1 ≠ 0) :
    loopE s C (b + 1) i st =
      loopE s C b (i + 1)
        { st with iterations := i + 1
                  total_failures := (C.classify i).length
                  fixes := (runIter C i (C.classify i) 0 0 st.fixes).2 } := by
  have he' : (C.classify i).isEmpty = false := by
    cases hcl : C.classify i with
    | nil => exact absurd hcl he
    | cons a t => rfl
  simp only [loopE, hp, he', hz]
  rfl

theorem loopE_iterations_le (s : Bool) (C : Collab) :
    ∀ (b i : Nat) (st st' : LoopState),
      loopE s C b i st = Except.ok st' →
      st'.iterations ≤ i + b ∨ st' = st := by
  intro b
  induction b with
  | zero =>
    intro i st st' h
    rw [loopE_zero] at h
    right
    exact (Except.ok.injEq _ _).mp h |>.symm ▸ rfl
  | succ b ih =>
    intro i st st' h
    by_cases hp : (s && !(C.pushIterOk i)) = true
    · rw [loopE_succ_push s C b i st hp] at h
      exact absurd h (by simp)
    · have hp' : (s && !(C.pushIterOk i)) = false := by
        cases hb : (s && !(C.pushIterOk i)) with
        | false => rfl
        | true => exact absurd hb hp
      by_cases he : C.classify i = []
      · rw [loopE_succ_empty s C b i st hp' he] at h
        have : st' = { st with iterations := i + 1 } := by
          cases h
          rfl
        left
        rw [this]
        show i + 1 ≤ i + (b + 1)
        omega
      · by_cases hz : (runIter C i (C.classify i) 0 0 st.fixes).1 = 0
        · rw [loopE_succ_zerofix s C b i st hp' he hz] at h
          have : st'.iterations = i + 1 := by
            cases h
            rfl
          left
          omega
        · rw [loopE_succ_step s C b i st hp' he hz] at h
          rcases ih (i + 1) _ st' h with hle | heq
          · left
            omega
          · left
            rw [heq]
            show i + 1 ≤ i + (b + 1)
            omega

/- ===================== C2 ===================== -/

/-- C2 counterexample: negation of the claim at a concrete input. For a
    FailureRecord whose dispatch edit succeeds but whose commit fails, it is
    NOT the case that a Failed outcome with an empty commit message is
    recorded in the run's outcome list: no outcome at all is appended, the
    list stays empty. -/
theorem C2_commit_failure_counterexample :
    (¬ ∃ r ∈ (apply_and_commit_fix true false
        { type := ErrorType.SYNTAX, file := "a.py", line := 3, message := "invalid syntax" }
        []).2,
      r.status = "Failed" ∧ r.commit_message = "") ∧
    (apply_and_commit_fix true false
        { type := ErrorType.SYNTAX, file := "a.py", line := 3, message := "invalid syntax" }
        []).2 = [] := by
  constructor
  · rintro ⟨r, hr, _⟩
    exact List.not_mem_nil r hr
  · rfl

/-- C2 amended: when the dispatch edit succeeds but the commit fails, the
    orchestrator records no outcome (the run's outcome list is unchanged) and
    continues with the remaining failures of that iteration; a failed edit
    records a Failed outcome with empty commit message; a Fixed outcome is
    recorded exactly when both the edit and the commit succeeded. -/
theorem C2_commit_failure_amended (editOk commitOk : Bool) (e : ErrorInfo)
    (fixes : List FixResult) :
    (editOk = true → commitOk = false →
      apply_and_commit_fix editOk commitOk e fixes = (false, fixes)) ∧
    (editOk = false →
      apply_and_commit_fix editOk commitOk e fixes = (false, fixes ++ [failedRecord e])) ∧
    (editOk = true → commitOk = true →
      apply_and_commit_fix editOk commitOk e fixes = (true, fixes ++ [fixedRecord e])) ∧
    (∀ (C : Collab) (i j cnt : Nat) (rest : List ErrorInfo),
      C.editOk i j = true → C.commitOk i j = false →
      runIter C i (e :: rest) j cnt fixes = runIter C i rest (j + 1) cnt fixes) := by
  refine ⟨?_, ?_, ?_, ?_⟩
  · intro h1 h2
    simp [apply_and_commit_fix, h1, h2]
  · intro h1
    simp [apply_and_commit_fix, h1]
  · intro h1 h2
    simp [apply_and_commit_fix, h1, h2]
  · intro C i j cnt rest h1 h2
    simp [runIter, apply_and_commit_fix, h1, h2]

/-- C2 witness: the amended behaviour at concrete inputs. -/
theorem C2_commit_failure_witness :
    apply_and_commit_fix true false
      { type := ErrorType.LOGIC, file := "b.py", line := 7, message := "x is not defined" }
      [failedRecord { type := ErrorType.SYNTAX, file := "a.py", line := 1, message := "invalid syntax" }]
      = (false,
         [failedRecord { type := ErrorType.SYNTAX, file := "a.py", line := 1, message := "invalid syntax" }]) :=
  (C2_commit_failure_amended true false
    { type := ErrorType.LOGIC, file := "b.py", line := 7, message := "x is not defined" }
    [failedRecord { type := ErrorType.SYNTAX, file := "a.py", line := 1, message := "invalid syntax" }]).1
    rfl rfl

/- ===================== C3 ===================== -/

/-- C3: the repair loop executes at most maxRetries iterations; it stops as
    soon as an iteration classifies zero failures; it stops as soon as an
    iteration applies zero successful fixes even if budget remains; and in
    the budget-3 scenario where iterations one and two each fix one error and
    iteration three finds none, it stops with iterations = 3 and status
    PASSED. -/
theorem C3_loop_budget_and_stopping :
    (∀ (C : Collab) (maxR : Nat) (st : LoopState),
      loopE false C maxR 0 initialLoopState = Except.ok st → st.iterations ≤ maxR) ∧
    (∀ (C : Collab) (b i : Nat) (st : LoopState), C.classify i = [] →
      loopE false C (b + 1) i st = Except.ok { st with iterations := i + 1 }) ∧
    (∀ (C : Collab) (b i : Nat) (st : LoopState), C.classify i ≠ [] →
      (runIter C i (C.classify i) 0 0 st.fixes).1 = 0 →
      loopE false C (b + 1) i st =
        Except.ok { st with iterations := i + 1
                            total_failures := (C.classify i).length
                            fixes := (runIter C i (C.classify i) 0 0 st.fixes).2 }) ∧
    (loopE false scenarioCollab 3 0 initialLoopState = Except.ok scenarioFinal ∧
      scenarioFinal.iterations = 3 ∧
      generate_status scenarioFinal.fixes = "PASSED" ∧
      ∀ f ∈ scenarioFinal.fixes, f.status = "Fixed") := by
  refine ⟨?_, ?_, ?_, ?_, ?_, ?_, ?_⟩
  · intro C maxR st h
    rcases loopE_iterations_le false C maxR 0 initialLoopState st h with hle | heq
    · simpa using hle
    · rw [heq]
      exact Nat.zero_le maxR
  · intro C b i st he
    exact loopE_succ_empty false C b i st (by simp) he
  · intro C b i st he hz
    exact loopE_succ_zerofix false C b i st (by simp) he hz
  · rfl
  · rfl
  · decide
  · decide

/-- C3 witness: the stopping conditions discharged at the concrete scenario
    collaborator. -/
theorem C3_loop_witness :
    scenarioFinal.iterations ≤ 3 ∧
    loopE false scenarioCollab 1 2 initialLoopState =
      Except.ok { initialLoopState with iterations := 3 } := by
  constructor
  · exact C3_loop_budget_and_stopping.1 scenarioCollab 3 scenarioFinal rfl
  · exact C3_loop_budget_and_stopping.2.1 scenarioCollab 0 2 initialLoopState rfl

/- ===================== C7 ===================== -/

theorem loopE_ok_of_nofatal (s : Bool) (C : Collab)
    (h : ∀ i, (s && !(C.pushIterOk i)) = false) :
    ∀ (b i : Nat) (st : LoopState), ∃ st', loopE s C b i st = Except.ok st' := by
  intro b
  induction b with
  | zero =>
    intro i st
    exact ⟨st, rfl⟩
  | succ b ih =>
    intro i st
    by_cases he : C.classify i = []
    · exact ⟨_, loopE_succ_empty s C b i st (h i) he⟩
    · by_cases hz : (runIter C i (C.classify i) 0 0 st.fixes).1 = 0
      · exact ⟨_, loopE_succ_zerofix s C b i st (h i) he hz⟩
      · rcases ih (i + 1)
          { st with iterations := i + 1
                    total_failures := (C.classify i).length
                    fixes := (runIter C i (C.classify i) 0 0 st.fixes).2 } with ⟨st', hst⟩
        exact ⟨st', by rw [loopE_succ_step s C b i st (h i) he hz]; exact hst⟩

/-- C7 counterexample: a sandbox-mode run that gets past branch creation but
    whose branch push fails raises instead of completing with a report, so a
    push failure is not absorbed. -/
theorem C7_push_fatal_counterexample :
    run true 3 "repo" "branch" pushFailCollab =
      Except.error "Failed to push branch for sandbox access" ∧
    ∀ r, run true 3 "repo" "branch" pushFailCollab ≠ Except.ok r := by
  refine ⟨rfl, ?_⟩
  intro r h
  rw [show run true 3 "repo" "branch" pushFailCollab =
      Except.error "Failed to push branch for sandbox access" from rfl] at h
  exact Except.noConfusion h

/-- C7 amended: checkout and branch-creation failures propagate as fatal
    errors, and in remote-sandbox mode so does a failed branch push before
    testing; test execution, per-fix commit, final push, install and progress
    failures are absorbed, so every local-mode run that gets past branch
    creation — and every sandbox-mode run whose branch pushes succeed —
    completes and produces a report. -/
theorem C7_fatal_boundaries_amended (C : Collab) (maxR : Nat) (repo branch : String) :
    (C.cloneOk = false → ∀ s, run s maxR repo branch C = Except.error "clone failed") ∧
    (C.cloneOk = true → C.branchOk = false →
      ∀ s, run s maxR repo branch C = Except.error "branch failed") ∧
    (C.cloneOk = true → C.branchOk = true →
      ∃ r, run false maxR repo branch C = Except.ok r) ∧
    (C.cloneOk = true → C.branchOk = true → C.pushForSandboxOk = true →
      (∀ i, C.pushIterOk i = true) →
      ∃ r, run true maxR repo branch C = Except.ok r) ∧
    (C.cloneOk = true → C.branchOk = true → C.pushForSandboxOk = false →
      run true maxR repo branch C = Except.error "Failed to push branch for sandbox access") := by
  refine ⟨?_, ?_, ?_, ?_, ?_⟩
  · intro h s
    simp [run, h]
  · intro h1 h2 s
    simp [run, h1, h2]
  · intro h1 h2
    rcases loopE_ok_of_nofatal false C (by simp) maxR 0 initialLoopState with ⟨st, hst⟩
    refine ⟨generate_response repo branch st.total_failures st.iterations st.fixes, ?_⟩
    simp [run, h1, h2, hst]
  · intro h1 h2 h3 h4
    rcases loopE_ok_of_nofatal true C (by intro i; simp [h4 i]) maxR 0 initialLoopState with ⟨st, hst⟩
    refine ⟨generate_response repo branch st.total_failures st.iterations st.fixes, ?_⟩
    simp [run, h1, h2, h3, hst]
  · intro h1 h2 h3
    simp [run, h1, h2, h3]

/-- C7 witness: the amended boundaries at a concrete collaborator. -/
theorem C7_fatal_boundaries_witness :
    scenarioCollab.cloneOk = true ∧ scenarioCollab.branchOk = true ∧
    ∃ r, run false 3 "repo" "branch" scenarioCollab = Except.ok r :=
  ⟨rfl, rfl, (C7_fatal_boundaries_amended scenarioCollab 3 "repo" "branch").2.2.1 rfl rfl⟩

/- ===================== C4 ===================== -/

/-- C4 counterexample: when the sandbox-side test command times out, the
    server responds with stderr "test execution timed out", and the
    orchestrator receives the non-empty combined text, contradicting the
    claim that every timed-out test execution yields empty output text. -/
theorem C4_remote_timeout_counterexample :
    run_tests_output true
      (RemoteCallOutcome.ok (sandbox_run_tests (CmdOutcome.done "" "" 0) "python"
        (CmdOutcome.done "" "" 0) CmdOutcome.timedOut))
      LocalTestOutcome.excFailed
      = "\ntest execution timed out" ∧
    ("\ntest execution timed out" : String) ≠ "" := by
  constructor
  · rfl
  · decide

/-- C4 amended: a local test execution that times out or fails and a remote
    protocol call that fails (connection error, bad status, call timeout)
    yield empty output text; a sandbox-side install or test timeout instead
    yields the fixed non-empty text newline-test-execution-timed-out; in all
    these cases the classifier recognizes zero failures, and a zero-failure
    classification ends the loop for that run. -/
theorem C4_empty_output_amended (so se : String) (rc : Int) (pt : String)
    (inst : CmdOutcome) (l : LocalTestOutcome) (r : RemoteCallOutcome) :
    (run_tests_output false r LocalTestOutcome.timedOut = "") ∧
    (run_tests_output false r LocalTestOutcome.excFailed = "") ∧
    (run_tests_output true RemoteCallOutcome.excFailed l = "") ∧
    (run_tests_output true
        (RemoteCallOutcome.ok
          (sandbox_run_tests (CmdOutcome.done so se rc) pt inst CmdOutcome.timedOut)) l
      = "\ntest execution timed out") ∧
    classifyRaw "" = [] ∧
    classifyRaw "\ntest execution timed out" = [] ∧
    (∀ (C : Collab) (b i : Nat) (st : LoopState), C.classify i = [] →
      loopE false C (b + 1) i st = Except.ok { st with iterations := i + 1 }) := by
  refine ⟨rfl, rfl, rfl, ?_, by decide, by decide, ?_⟩
  · cases inst <;> rfl
  · intro C b i st he
    exact loopE_succ_empty false C b i st (by simp) he

/-- C4 witness: the amended behaviour at concrete outcomes. -/
theorem C4_empty_output_witness :
    run_tests_output true RemoteCallOutcome.excFailed LocalTestOutcome.excFailed = "" ∧
    loopE false scenarioCollab 1 5 initialLoopState =
      Except.ok { initialLoopState with iterations := 6 } := by
  refine ⟨(C4_empty_output_amended "" "" 0 "python" (CmdOutcome.done "" "" 0)
      LocalTestOutcome.excFailed RemoteCallOutcome.excFailed).2.2.1, ?_⟩
  exact (C4_empty_output_amended "" "" 0 "python" (CmdOutcome.done "" "" 0)
      LocalTestOutcome.excFailed RemoteCallOutcome.excFailed).2.2.2.2.2.2 scenarioCollab 0 5
      initialLoopState rfl

/- ===================== C5 ===================== -/

theorem pyInsert_length (lines : List String) (i : Int) (v : String) :
    (pyInsert lines i v).length = lines.length + 1 := by
  unfold pyInsert
  set j := pyWrap lines.length i
  by_cases hj : j < 0
  · simp [hj]
  · simp only [hj, if_false, List.length_append, List.length_take, List.length_cons,
      List.length_drop]
    omega

/-- C5 counterexample: dispatching the same Logic undefined-name record a
    second time on an already-fixed file returns true again and inserts a
    second initializer line, so dispatch is not idempotent-safe. -/
theorem C5_idempotence_counterexample :
    (apply_fix c5err (apply_fix c5err (some [ "print(x)\n" ])).2).1 = true ∧
    (apply_fix c5err (apply_fix c5err (some [ "print(x)\n" ])).2).2 ≠
      (apply_fix c5err (some [ "print(x)\n" ])).2 := by
  constructor
  · decide
  · decide

/-- C5 amended: dispatch is not idempotent-safe for Logic undefined-name
    records: on any in-range line of any file, a second application of the
    initializer rule again returns true and again changes the file,
    inserting one more initializing assignment each time. -/
theorem initialize_variable_eq (lines : List String) (v : String) (n : Int)
    (h : n ≤ (lines.length : Int)) :
    initialize_variable lines v n =
      (true, pyInsert lines (n - 1)
        (mkSpaces (indentOf (pyGet lines (n - 1))) ++ v ++
          " = None  # AI-AGENT: Auto-initialized\n")) := by
  unfold initialize_variable
  rw [if_pos h]

theorem C5_logic_reinjection_amended (lines : List String) (v : String) (n : Int)
    (h2 : n ≤ (lines.length : Int)) :
    (initialize_variable lines v n).1 = true ∧
    (initialize_variable (initialize_variable lines v n).2 v n).1 = true ∧
    (initialize_variable (initialize_variable lines v n).2 v n).2 ≠
      (initialize_variable lines v n).2 := by
  have E1 := initialize_variable_eq lines v n h2
  have hlen1 : ((initialize_variable lines v n).2).length = lines.length + 1 := by
    rw [E1]
    exact pyInsert_length lines (n - 1) _
  have h2' : n ≤ (((initialize_variable lines v n).2).length : Int) := by
    rw [hlen1]
    push_cast
    omega
  have E2 := initialize_variable_eq ((initialize_variable lines v n).2) v n h2'
  have hlen2 : ((initialize_variable (initialize_variable lines v n).2 v n).2).length =
      ((initialize_variable lines v n).2).length + 1 := by
    rw [E2]
    exact pyInsert_length _ (n - 1) _
  refine ⟨by rw [E1], by rw [E2], ?_⟩
  intro hx
  rw [hx] at hlen2
  omega

/-- C5 witness: the amended non-idempotence at a concrete one-line file. -/
theorem C5_logic_reinjection_witness :
    ((1 : Int) ≤ (([ "print(x)\n" ] : List String).length : Int)) ∧
    (initialize_variable [ "print(x)\n" ] "x" 1).1 = true ∧
    (initialize_variable (initialize_variable [ "print(x)\n" ] "x" 1).2 "x" 1).1 = true ∧
    (initialize_variable (initialize_variable [ "print(x)\n" ] "x" 1).2 "x" 1).2 ≠
      (initialize_variable [ "print(x)\n" ] "x" 1).2 :=
  ⟨by decide, C5_logic_reinjection_amended [ "print(x)\n" ] "x" 1 (by decide)⟩

/- ===================== C8 ===================== -/

/-- C8: for a file whose line 10 is the single-equals conditional and a
    Syntax record with the invalid-syntax diagnostic, dispatch rewrites the
    line to the double-equals form and returns true (which the orchestrator
    reports as Fixed when the commit succeeds). -/
theorem C8_comparison_fix (lines : List String)
    (hlen : 10 ≤ lines.length)
    (hline : pyGet lines ((9 : Int)) = "if x = 5:\n") :
    apply_fix c8err (some lines) = (true, some (lines.set 9 "if x == 5:\n")) := by
  have h10 : ((10 : Int) ≤ (lines.length : Int)) := by exact_mod_cast hlen
  have hguard : (decide (c8err.line > (lines.length : Int)) || decide (c8err.line < 1)) = false := by
    have e1 : c8err.line = (10 : Int) := rfl
    rw [e1]
    simp only [Bool.or_eq_false_iff, decide_eq_false_iff_not, not_lt]
    omega
  show fix_syntax_error_body c8err lines = _
  unfold fix_syntax_error_body
  rw [hguard]
  simp only [Bool.false_eq_true, if_false]
  have hl : pyGet lines (c8err.line - 1) = "if x = 5:\n" := hline
  rw [hl]
  rfl

/-- C8 witness: the rewrite at a concrete ten-line file. -/
theorem C8_comparison_fix_witness :
    10 ≤ ([ "a\n", "b\n", "c\n", "d\n", "e\n", "f\n", "g\n", "h\n", "i\n",
            "if x = 5:\n" ] : List String).length ∧
    apply_fix c8err
        (some [ "a\n", "b\n", "c\n", "d\n", "e\n", "f\n", "g\n", "h\n", "i\n",
                "if x = 5:\n" ]) =
      (true, some ([ "a\n", "b\n", "c\n", "d\n", "e\n", "f\n", "g\n", "h\n", "i\n",
                     "if x = 5:\n" ].set 9 "if x == 5:\n")) :=
  ⟨by decide,
    C8_comparison_fix
      [ "a\n", "b\n", "c\n", "d\n", "e\n", "f\n", "g\n", "h\n", "i\n", "if x = 5:\n" ]
      (by decide) (by decide)⟩

/- ===================== C9 ===================== -/

/-- C9 counterexample: the unresolvable name foo also removes the distinct
    symbol food (substring match) and the whole line is commented out even
    though another symbol of the line remained, contradicting the claim. -/
theorem C9_remove_import_counterexample :
    apply_fix c9err (some [ "from m import foo, food\n" ]) =
      (true, some [ "# from m import foo, food\n" ]) ∧
    strContains "food" "foo" = true ∧ ("food" : String) ≠ "foo" := by
  refine ⟨by decide, by decide, by decide⟩

/-- C9 amended: on the first line containing a from marker and the name and
    splitting into exactly two parts around the import keyword, dispatch
    keeps exactly the comma-separated symbols that do NOT contain the
    unresolvable name as a substring (so symbols merely containing it are
    removed too), and comments out the whole line exactly when no symbol
    survives that filter. -/
theorem C9_remove_import_amended (line name b imps : String) (rest : List String)
    (hsplit : pySplit line "import" = [b, imps])
    (hfrom : strContains line "from " = true)
    (hname : strContains line name = true) :
    remove_from_import (line :: rest) name =
      (true,
        (if ((pySplit imps ",").map pyStrip).filter (fun s => !(strContains s name)) = [] then
          "# " ++ line
         else
          b ++ "import " ++
            pyJoin ", "
              (((pySplit imps ",").map pyStrip).filter (fun s => !(strContains s name))) ++ "\n")
        :: rest) ∧
    ∀ s ∈ (pySplit imps ",").map pyStrip,
      (s ∈ ((pySplit imps ",").map pyStrip).filter (fun s => !(strContains s name)) ↔
        strContains s name = false) := by
  constructor
  · unfold remove_from_import remove_from_import_go
    simp only [hsplit, hfrom, hname, Bool.and_self, if_true]
    set kept := ((pySplit imps ",").map pyStrip).filter (fun s => !(strContains s name)) with hk
    by_cases hke : kept = []
    · simp [hke]
    · have hne : kept.isEmpty = false := by
        cases hkc : kept with
        | nil => exact absurd hkc hke
        | cons a t => rfl
      simp [hne, hke]
  · intro s hs
    constructor
    · intro hmem
      have := List.of_mem_filter hmem
      simpa using this
    · intro hnc
      exact List.mem_filter.mpr ⟨hs, by simp [hnc]⟩

/-- C9 witness: the amended filter at a concrete two-symbol import line. -/
theorem C9_remove_import_witness :
    remove_from_import [ "from m import foo, bar\n" ] "foo" =
      (true, [ "from m import bar\n" ]) := by
  rw [(C9_remove_import_amended "from m import foo, bar\n" "foo" "from m " " foo, bar\n" []
      (by decide) (by decide) (by decide)).1]
  decide

/-- Bridge: the dispatch wrapper delegates to the wrapped body on a present
    file for every kind (used when relating body lemmas to apply_fix). -/
theorem apply_fix_some (e : ErrorInfo) (lines : List String) :
    apply_fix e (some lines) =
      (match e.type with
       | ErrorType.SYNTAX => fix_syntax_error_body e lines
       | ErrorType.INDENTATION => fix_indentation_body e lines
       | ErrorType.TYPE_ERROR => fix_type_error_body e lines
       | ErrorType.IMPORT => fix_import_body e lines
       | ErrorType.LOGIC => fix_logic_body e lines
       | ErrorType.LINTING => fix_linting_body e lines) := by
  cases e with
  | mk ty f ln msg => cases ty <;> rfl

/- ===================== C6 ===================== -/

theorem add_typing_import_shape (lines : List String) (t : String) :
    (add_typing_import lines t).1 = true ∨ add_typing_import lines t = (false, lines) := by
  unfold add_typing_import
  dsimp only
  repeat' split
  all_goals first
  | (left; rfl)
  | (right; rfl)

theorem fix_string_concatenation_shape (lines : List String) (n : Int) (msg : String) :
    (fix_string_concatenation lines n msg).1 = true ∨
      fix_string_concatenation lines n msg = (false, lines) := by
  unfold fix_string_concatenation
  dsimp only
  repeat' split
  all_goals first
  | (left; rfl)
  | (right; rfl)

theorem comment_out_import_shape (lines : List String) (m : String) :
    (comment_out_import lines m).1 = true ∨ comment_out_import lines m = (false, lines) := by
  unfold comment_out_import
  split
  · left; rfl
  · right; rfl

theorem remove_from_import_shape (lines : List String) (n : String) :
    (remove_from_import lines n).1 = true ∨ remove_from_import lines n = (false, lines) := by
  unfold remove_from_import
  split
  · left; rfl
  · right; rfl

theorem initialize_variable_shape (lines : List String) (v : String) (n : Int) :
    (initialize_variable lines v n).1 = true ∨ initialize_variable lines v n = (false, lines) := by
  unfold initialize_variable
  split
  · left; rfl
  · right; rfl

theorem remove_unused_import_shape (lines : List String) (n : Int) :
    (remove_unused_import lines n).1 = true ∨ remove_unused_import lines n = (false, lines) := by
  unfold remove_unused_import
  dsimp only
  repeat' split
  all_goals first
  | (left; rfl)
  | (right; rfl)

theorem remove_trailing_whitespace_shape (lines : List String) (n : Int) :
    (remove_trailing_whitespace lines n).1 = true ∨
      remove_trailing_whitespace lines n = (false, lines) := by
  unfold remove_trailing_whitespace
  split
  · left; rfl
  · right; rfl

theorem fix_syntax_error_body_shape (e : ErrorInfo) (lines : List String) :
    (fix_syntax_error_body e lines).1 = true ∨
      fix_syntax_error_body e lines = (false, some lines) := by
  unfold fix_syntax_error_body
  dsimp only
  repeat' split
  all_goals first
  | (left; rfl)
  | (right; rfl)

theorem fix_indentation_body_shape (e : ErrorInfo) (lines : List String) :
    (fix_indentation_body e lines).1 = true ∨
      fix_indentation_body e lines = (false, some lines) := by
  unfold fix_indentation_body
  dsimp only
  repeat' split
  all_goals first
  | (left; rfl)
  | (right; rfl)

theorem fix_type_error_body_shape (e : ErrorInfo) (lines : List String) :
    (fix_type_error_body e lines).1 = true ∨
      fix_type_error_body e lines = (false, some lines) := by
  unfold fix_type_error_body
  dsimp only
  split
  · rename_i r heq
    have hr : r.1 = true ∨ r = (false, lines) := by
      split at heq
      · split at heq
        · split at heq
          · cases heq
            exact add_typing_import_shape lines _
          · exact Option.noConfusion heq
        · exact Option.noConfusion heq
      · exact Option.noConfusion heq
    rcases hr with h1 | h1
    · left; exact h1
    · right; rw [h1]
  · split
    · rcases fix_string_concatenation_shape lines e.line e.message with h1 | h1
      · left; exact h1
      · right; rw [h1]
    · split
      · right; rfl
      · split
        · right; rfl
        · right; rfl

theorem fix_import_body_shape (e : ErrorInfo) (lines : List String) :
    (fix_import_body e lines).1 = true ∨
      fix_import_body e lines = (false, some lines) := by
  unfold fix_import_body
  split
  · rcases comment_out_import_shape lines _ with h1 | h1
    · left; exact h1
    · right; rw [h1]
  · split
    · rcases remove_from_import_shape lines _ with h1 | h1
      · left; exact h1
      · right; rw [h1]
    · split
      · right; rfl
      · right; rfl

theorem fix_logic_rest_eq (e : ErrorInfo) (lines : List String) :
    fix_logic_rest e lines = (false, some lines) := by
  unfold fix_logic_rest
  repeat' split
  all_goals rfl

theorem fix_logic_body_shape (e : ErrorInfo) (lines : List String) :
    (fix_logic_body e lines).1 = true ∨
      fix_logic_body e lines = (false, some lines) := by
  unfold fix_logic_body
  split
  · split
    · rcases initialize_variable_shape lines _ e.line with h1 | h1
      · left; exact h1
      · right; rw [h1]
    · right; exact fix_logic_rest_eq e lines
  · right; exact fix_logic_rest_eq e lines

theorem fix_linting_body_shape (e : ErrorInfo) (lines : List String) :
    (fix_linting_body e lines).1 = true ∨
      fix_linting_body e lines = (false, some lines) := by
  unfold fix_linting_body
  split
  · rcases remove_unused_import_shape lines e.line with h1 | h1
    · left; exact h1
    · right; rw [h1]
  · split
    · right; rfl
    · split
      · rcases remove_trailing_whitespace_shape lines e.line with h1 | h1
        · left; exact h1
        · right; rw [h1]
      · right; rfl

/-- C6: every dispatch path that reports false leaves the target file
    untouched: the file is written only when a transformation was applied
    and true is returned. -/
theorem C6_false_leaves_file_untouched (e : ErrorInfo) (fs : Option (List String))
    (h : (apply_fix e fs).1 = false) : (apply_fix e fs).2 = fs := by
  cases fs with
  | none =>
    cases e with
    | mk ty f ln msg => cases ty <;> rfl
  | some lines =>
    have hshape : (apply_fix e (some lines)).1 = true ∨
        apply_fix e (some lines) = (false, some lines) := by
      cases e with
      | mk ty f ln msg =>
        cases ty
        · exact fix_syntax_error_body_shape ⟨ErrorType.SYNTAX, f, ln, msg⟩ lines
        · exact fix_indentation_body_shape ⟨ErrorType.INDENTATION, f, ln, msg⟩ lines
        · exact fix_type_error_body_shape ⟨ErrorType.TYPE_ERROR, f, ln, msg⟩ lines
        · exact fix_import_body_shape ⟨ErrorType.IMPORT, f, ln, msg⟩ lines
        · exact fix_logic_body_shape ⟨ErrorType.LOGIC, f, ln, msg⟩ lines
        · exact fix_linting_body_shape ⟨ErrorType.LINTING, f, ln, msg⟩ lines
    rcases hshape with h1 | h1
    · rw [h1] at h
      exact absurd h (by simp)
    · rw [h1]

/-- C6 witness: a declined linting fix leaves the file untouched. -/
theorem C6_false_untouched_witness :
    (apply_fix { type := ErrorType.LINTING, file := "w.py", line := 1,
                 message := "unused variable x" } (some [ "import os\n" ])).1 = false ∧
    (apply_fix { type := ErrorType.LINTING, file := "w.py", line := 1,
                 message := "unused variable x" } (some [ "import os\n" ])).2 =
      some [ "import os\n" ] :=
  ⟨by decide,
    C6_false_leaves_file_untouched
      { type := ErrorType.LINTING, file := "w.py", line := 1, message := "unused variable x" }
      (some [ "import os\n" ]) (by decide)⟩
